import Mathlib

/-!
Verification of the GitHub → YouTrack synchronization engine.

The definitions below are a shallow embedding of the two Rust source files:
`src/main.rs` (bootstrap, polling loop, dedup window, dispatcher, status
translation) and `youtrack_api/src/lib.rs` (the YouTrack HTTP client).
Machine integers become `Nat`, `VecDeque` becomes `List` (front of deque =
head of list, so `push_front` is `cons` and `pop_front` is `tail`),
`HashMap` becomes an association list whose insert overwrites the key, and
network calls are modelled by passing the outcome of the call explicitly.
-/

namespace YouSync

/-- Lifecycle status of a source issue (octocrab `IssueState`, a
non-exhaustive enum: `other` stands for any variant besides Open/Closed). -/
inductive IssueState where
  | open_
  | closed
  | other
deriving DecidableEq, Fintype

/-- Closure reason of a source issue (octocrab `IssueStateReason`;
non-exhaustive, `other` stands for any variant beyond the named ones). -/
inductive IssueStateReason where
  | completed
  | notPlanned
  | reopened
  | duplicate
  | other
deriving DecidableEq, Fintype

/-- A GitHub issue as used by `main.rs`: the fields the sync engine reads.
`pull_request` is `some ()` when the entry is really a pull request. -/
structure Issue where
  id : Nat
  title : String
  body : Option String
  state : IssueState
  state_reason : Option IssueStateReason
  pull_request : Option Unit
deriving DecidableEq

/-- `youtrack_api::StateBundleElement`. -/
structure StateBundleElement where
  name : String
deriving DecidableEq

/-- `youtrack_api::CustomField`. -/
structure CustomField where
  name : String
  type_ : String
  value : StateBundleElement
deriving DecidableEq

/-- `youtrack_api::IssueData`: the payload of a create/update call. -/
structure IssueData where
  summary : String
  description : Option String
  custom_fields : List CustomField
deriving DecidableEq

/-- The status translation: the inner `match` of `create_issue_data`
(`main.rs` lines 199-208), factored out as the spec's `map_status`. -/
def map_status (state : IssueState) (state_reason : Option IssueStateReason) : String :=
  match state with
  | IssueState.open_ => "Open"
  | IssueState.closed =>
    match state_reason with
    | some IssueStateReason.notPlanned => "Won\x27t fix"
    | some IssueStateReason.reopened => "Reopened"
    | some IssueStateReason.duplicate => "Duplicate"
    | _ => "Fixed"
  | IssueState.other => "Submitted"

/-- `create_issue_data` (`main.rs` lines 191-213): builds the full payload
from an issue snapshot. -/
def create_issue_data (issue : Issue) : IssueData :=
  { summary := issue.title
    description := issue.body
    custom_fields := [{ name := "State"
                        type_ := "StateIssueCustomField"
                        value := { name := map_status issue.state issue.state_reason } }] }

/-- A change event from the GitHub feed (`AltEvent` in `main.rs`). -/
structure AltEvent where
  id : Nat
  issue : Issue
  event : String
deriving DecidableEq

/-- The dedup-window insertion of `main.rs` lines 147-151: the window is a
`VecDeque` (head of the list = front of the deque); when the window holds
20 entries, `pop_front` removes the front entry (`tail`), then `push_front`
adds the new id at the front (`cons`). -/
def windowInsert (seen : List Nat) (id : Nat) : List Nat :=
  let seen := if seen.length == 20 then seen.tail else seen
  id :: seen

/-- The loop's guarded insert (`main.rs` line 146): ids are only inserted
when not already contained. -/
def windowInsertIfUnseen (seen : List Nat) (id : Nat) : List Nat :=
  if seen.contains id then seen else windowInsert seen id

/-- The identity mapping (`issues: HashMap<IssueId, youtrack IssueId>`),
as an association list; lookup finds the entry for the key. -/
def mapLookup (m : List (Nat × Nat)) (k : Nat) : Option Nat :=
  (m.find? (fun p => p.1 == k)).map (fun p => p.2)

/-- `HashMap::insert`: the previous value for the key, if any, is
overwritten. -/
def mapInsert (m : List (Nat × Nat)) (k v : Nat) : List (Nat × Nat) :=
  (k, v) :: m.filter (fun p => p.1 != k)

/-- The target-tracker action a dispatch step performs, if any. -/
inductive Action where
  | update (youtrack_id : Nat) (data : IssueData)
  | create (data : IssueData)
deriving DecidableEq

/-- The dispatcher's mutable state: the dedup window `seen` and the
identity mapping `issues` of `run` in `main.rs`. -/
structure SyncState where
  seen : List Nat
  issues : List (Nat × Nat)
deriving DecidableEq

/-- One pass of the per-event body of the sync loop (`main.rs` lines
146-172): dedup check, window insert, mapping lookup, then either an
update (for kinds closed/reopened/renamed), nothing, or a create. The
create's returned id is discarded by the source (`create_issue(project,
&event.issue).await?;`), so the mapping is not modified here. -/
def dispatchEvent (st : SyncState) (event : AltEvent) : SyncState × Option Action :=
  if st.seen.contains event.id then (st, none)
  else
    let seen := windowInsert st.seen event.id
    match mapLookup st.issues event.issue.id with
    | some youtrack_id =>
      if event.event == "closed" || event.event == "reopened" || event.event == "renamed" then
        ({ seen := seen, issues := st.issues },
          some (Action.update youtrack_id (create_issue_data event.issue)))
      else
        ({ seen := seen, issues := st.issues }, none)
    | none =>
      ({ seen := seen, issues := st.issues },
        some (Action.create (create_issue_data event.issue)))

/-- Folding step for a batch of events: thread the state, collect the
dispatched actions in order. -/
def batchStep (acc : SyncState × List Action) (event : AltEvent) : SyncState × List Action :=
  let r := dispatchEvent acc.1 event
  (r.1, acc.2 ++ r.2.toList)

/-- The `for event in page` loop of one poll (`main.rs` lines 145-174). -/
def processBatch (st : SyncState) (events : List AltEvent) : SyncState × List Action :=
  events.foldl batchStep (st, [])

/-- One dispatch step together with the outcome of the dispatched target
call: `fails` tells whether the create/update errors. On error the `?`
operator aborts the cycle with the state as already mutated (`Except.error`
carries that state). -/
def runEvent (fails : Action → Bool) (st : SyncState) (event : AltEvent) :
    Except SyncState SyncState :=
  let r := dispatchEvent st event
  match r.2 with
  | none => Except.ok r.1
  | some a => if fails a then Except.error r.1 else Except.ok r.1

/-- The state in which a dispatch step leaves the process, whether the
target call succeeded or aborted the cycle. -/
def outState : Except SyncState SyncState → SyncState
  | Except.ok s => s
  | Except.error s => s

/-- One response of the conditional event fetch, as the loop sees it:
its status code, the token `EntityTag::extract_from_response` yields for
it, and the events its body parses to. -/
structure FeedResponse where
  status : Nat
  etag : Option String
  events : List AltEvent
deriving DecidableEq

/-- One poll of the loop head (`main.rs` lines 126-144): the stored token
is unconditionally replaced by the one extracted from the response (line
139); events are parsed and handed to the dispatcher only when the status
is not 304 (NOT_MODIFIED). Returns the new stored token and the events
dispatched. -/
def pollStep (_etag : Option String) (response : FeedResponse) :
    Option String × List AltEvent :=
  if response.status != 304 then (response.etag, response.events)
  else (response.etag, [])

/-- Folding step of the bootstrap loop (`main.rs` lines 114-118): one
`create_issue` call per issue, then `issues.insert(issue.id, id)`. The
fresh target id returned by the create is modelled as the number of
creates issued so far. -/
def bootstrapStep (acc : List (Nat × Nat) × List IssueData) (issue : Issue) :
    List (Nat × Nat) × List IssueData :=
  (mapInsert acc.1 issue.id acc.2.length, acc.2 ++ [create_issue_data issue])

/-- The bootstrap loop (`main.rs` lines 113-118): pull requests are
filtered out, then each remaining issue gets a create call and a mapping
entry. Returns the mapping and the list of issued create payloads. -/
def bootstrap (github_issues : List Issue) : List (Nat × Nat) × List IssueData :=
  (github_issues.filter (fun v => v.pull_request.isNone)).foldl bootstrapStep ([], [])

/-- An error of the underlying HTTP client (`reqwest::Error`); its payload
is irrelevant here, a tag suffices. -/
structure ReqwestError where
  code : Nat
deriving DecidableEq

/-- `youtrack_api::Error`. -/
inductive Error where
  | reqwest (e : ReqwestError)
  | invalidHeaderValue
deriving DecidableEq

/-- Outcome of `send().await` for `update_issue`: either the transport
fails, or a response is delivered with some status code. -/
inductive SendOutcome where
  | transportError (e : ReqwestError)
  | response (status : Nat)
deriving DecidableEq

/-- `Project::update_issue` (`lib.rs` lines 154-170): POSTs the payload and
returns `Ok(())` without inspecting the delivered response at all; only
`send().await?` exits early, with the transport error. -/
def update_issue (_issue_id : String) (_issue : IssueData) (send : SendOutcome) :
    Except Error Unit :=
  match send with
  | SendOutcome.transportError e => Except.error (Error.reqwest e)
  | SendOutcome.response _ => Except.ok ()

/-- A parsed item of the project-search response (`FindProjectItem`). -/
structure FindProjectItem where
  id : String
  name : String
deriving DecidableEq

/-- `youtrack_api::Project`, reduced to its data fields (the client handle
carries no information relevant here). -/
structure Project where
  id : String
  name : String
deriving DecidableEq

/-- Outcome of `send().await` for `find_project`: the transport fails, or
a response arrives whose body parses (`Except.ok`) or fails to parse
(`Except.error`, a `reqwest::Error`). -/
inductive SendResult where
  | failed (e : ReqwestError)
  | ok (body : Except ReqwestError (List FindProjectItem))

/-- How a call to `find_project` can end: a panic (Rust `expect`), a
normal return, or an `Err` return. -/
inductive FnOutcome (α : Type) where
  | panicked (msg : String)
  | ok (v : α)
  | err (e : Error)
deriving DecidableEq

/-- `YouTrack::find_project` (`lib.rs` lines 66-102): the send outcome is
unwrapped with `.expect(":(")`, which panics on a transport failure; a
body-parse failure is returned as `Err(Error::Reqwest(..))` via `?`; the
request-building (URL join, `query.replace(" ", "+")`) only shapes the
outgoing request and is elided. -/
def find_project (_query : String) (send : SendResult) : FnOutcome (List Project) :=
  match send with
  | SendResult.failed _ => FnOutcome.panicked ":("
  | SendResult.ok body =>
    match body with
    | Except.error e => FnOutcome.err (Error.reqwest e)
    | Except.ok items =>
      FnOutcome.ok (items.map (fun v => { id := v.id, name := v.name }))

/-- Claim C3: the status translation is a total, deterministic function
(it is a Lean function, hence deterministic and defined on the whole
domain); it returns only labels from {Open, Won't fix, Reopened, Duplicate,
Fixed, Submitted} and follows exactly the table of the spec: Open → "Open";
Closed/NotPlanned → "Won't fix"; Closed/Reopened → "Reopened";
Closed/Duplicate → "Duplicate"; Closed with any other or no reason →
"Fixed"; any other status → "Submitted". -/
theorem C3_map_status_total :
    (∀ s r, map_status s r ∈
      (["Open", "Won\x27t fix", "Reopened", "Duplicate", "Fixed", "Submitted"] : List String)) ∧
    (∀ r, map_status IssueState.open_ r = "Open") ∧
    map_status IssueState.closed (some IssueStateReason.notPlanned) = "Won\x27t fix" ∧
    map_status IssueState.closed (some IssueStateReason.reopened) = "Reopened" ∧
    map_status IssueState.closed (some IssueStateReason.duplicate) = "Duplicate" ∧
    map_status IssueState.closed (some IssueStateReason.completed) = "Fixed" ∧
    map_status IssueState.closed (some IssueStateReason.other) = "Fixed" ∧
    map_status IssueState.closed none = "Fixed" ∧
    (∀ r, map_status IssueState.other r = "Submitted") := by
  refine ⟨?_, ?_, rfl, rfl, rfl, rfl, rfl, rfl, ?_⟩ <;> decide

/-- Claim C2 concerns the eviction order of the dedup window. The code
pushes new ids with `push_front` and evicts with `pop_front`, i.e. it
evicts the entry most recently pushed, not the oldest one. Evaluating the
window on the concrete run of the claim — inserting the 21 distinct ids
1, 2, …, 21 into an initially empty window, each only when not already
contained — shows the first-inserted id 1 is still contained while id 20,
one of the most recent 20 ids, has been evicted; the claim asserts the
exact opposite. -/
theorem C2_window_evicts_newest_resident :
    ((((List.range 21).map (fun i => i + 1)).foldl windowInsertIfUnseen []).contains 1 = true) ∧
    ((((List.range 21).map (fun i => i + 1)).foldl windowInsertIfUnseen []).contains 20 = false) ∧
    (((List.range 21).map (fun i => i + 1)).foldl windowInsertIfUnseen []).length = 20 := by
  refine ⟨?_, ?_, ?_⟩ <;> decide

/-- Claim C4 counterexample: a poll whose response is 304 (not modified)
and carries no entity tag. The stored token before the poll is `some "a"`;
after the poll the code has replaced it by the extraction from the
response, `none` — not the prior token, which the claim says is retained
unaltered. (No events are dispatched, as the claim also says.) -/
theorem C4_counterexample :
    pollStep (some "a") { status := 304, etag := none, events := [] } = (none, []) ∧
    (none : Option String) ≠ some "a" :=
  ⟨rfl, by simp⟩

/-- Claim C4 amended: for every poll whose response is "not modified", no
events are dispatched, and the stored token after the poll is the token
extracted from that response (the stored token is unconditionally
replaced, so the prior token is retained only when the response carries
it again). -/
theorem C4_not_modified (etag : Option String) (response : FeedResponse)
    (h : response.status = 304) :
    pollStep etag response = (response.etag, []) := by
  unfold pollStep
  simp [h]

/-- Witness for C4 amended at a concrete 304 response. -/
theorem C4_not_modified_witness :
    (304 : Nat) = 304 ∧
    pollStep (some "T0") { status := 304, etag := some "T0", events := [] } =
      (some "T0", []) :=
  ⟨rfl, C4_not_modified (some "T0") { status := 304, etag := some "T0", events := [] } rfl⟩

/-- Claim C9: `update_issue` returns `Ok(())` for every delivered
response, whatever its status code (400, 500, …); only a transport-level
failure of the send produces an error. -/
theorem C9_update_issue_ignores_status (issue_id : String) (issue : IssueData)
    (status : Nat) (e : ReqwestError) :
    update_issue issue_id issue (SendOutcome.response status) = Except.ok () ∧
    update_issue issue_id issue (SendOutcome.transportError e) =
      Except.error (Error.reqwest e) :=
  ⟨rfl, rfl⟩

/-- Claim C10: when the send of the project-search request fails,
`find_project` panics (the `expect(":(")`) instead of taking its declared
`Err` return path: its outcome is the panic, and is never `FnOutcome.err`. -/
theorem C10_find_project_send_failure_panics (query : String) (e : ReqwestError) :
    find_project query (SendResult.failed e) = FnOutcome.panicked ":(" ∧
    ∀ err, find_project query (SendResult.failed e) ≠ FnOutcome.err err :=
  ⟨rfl, fun _ h => FnOutcome.noConfusion h⟩

/-- A window insert never grows the window beyond 20 entries. -/
theorem windowInsert_length_le (seen : List Nat) (id : Nat)
    (h : seen.length ≤ 20) : (windowInsert seen id).length ≤ 20 := by
  unfold windowInsert
  cases hc : seen.length == 20 with
  | true =>
    have h20 : seen.length = 20 := by simpa using hc
    simp [hc, h20]
  | false =>
    have h20 : ¬ seen.length = 20 := by simpa using hc
    simp [hc]
    omega

/-- Each dispatch step preserves the capacity bound of the window. -/
theorem dispatchEvent_seen_length_le (st : SyncState) (event : AltEvent)
    (h : st.seen.length ≤ 20) :
    ((dispatchEvent st event).1).seen.length ≤ 20 := by
  unfold dispatchEvent
  cases hc : st.seen.contains event.id with
  | true => simpa [hc] using h
  | false =>
    cases hm : mapLookup st.issues event.issue.id with
    | none => simpa [hc, hm] using windowInsert_length_le st.seen event.id h
    | some y =>
      cases hk : (event.event == "closed" || event.event == "reopened"
          || event.event == "renamed") with
      | true => simpa [hc, hm, hk] using windowInsert_length_le st.seen event.id h
      | false => simpa [hc, hm, hk] using windowInsert_length_le st.seen event.id h

/-- The capacity bound is preserved across any folded batch. -/
theorem foldl_batchStep_seen_length_le (events : List AltEvent) :
    ∀ p : SyncState × List Action, p.1.seen.length ≤ 20 →
      ((events.foldl batchStep p).1).seen.length ≤ 20 := by
  induction events with
  | nil => intro p h; simpa using h
  | cons e es ih =>
    intro p h
    simp only [List.foldl_cons]
    exact ih _ (by simpa [batchStep] using dispatchEvent_seen_length_le p.1 e h)

/-- Claim C8: the dedup window never exceeds its capacity of 20 — for
every batch of events processed by the dispatch loop from a state whose
window respects the bound (in particular the initial empty window), the
window still holds at most 20 entries after every step, the last
included. -/
theorem C8_window_capacity (st : SyncState) (events : List AltEvent)
    (h : st.seen.length ≤ 20) :
    ((processBatch st events).1).seen.length ≤ 20 := by
  unfold processBatch
  exact foldl_batchStep_seen_length_le events (st, []) h

/-- A sample non-pull-request issue used to instantiate witnesses. -/
def sampleIssue : Issue :=
  { id := 1
    title := "Bug"
    body := none
    state := IssueState.open_
    state_reason := none
    pull_request := none }

/-- Witness for C8 on a concrete one-event batch from the empty state. -/
theorem C8_window_capacity_witness :
    ((⟨[], []⟩ : SyncState)).seen.length ≤ 20 ∧
    ((processBatch ⟨[], []⟩ [⟨7, sampleIssue, "closed"⟩]).1).seen.length ≤ 20 :=
  ⟨by decide, C8_window_capacity ⟨[], []⟩ [⟨7, sampleIssue, "closed"⟩] (by decide)⟩

/-- After dispatching an unseen event, its id is in the window. -/
theorem dispatchEvent_mem_seen (st : SyncState) (event : AltEvent)
    (h : st.seen.contains event.id = false) :
    ((dispatchEvent st event).1).seen.contains event.id = true := by
  have h' : event.id ∉ st.seen := by simpa using h
  unfold dispatchEvent windowInsert
  cases hm : mapLookup st.issues event.issue.id with
  | none => simp [h', hm]
  | some y =>
    cases hk : (event.event == "closed" || event.event == "reopened"
        || event.event == "renamed") with
    | true => simp [h', hm, hk]
    | false => simp [h', hm, hk]

/-- Running the dispatched action (successfully or not) ends in exactly
the state the dispatch step produced. -/
theorem outState_runEvent (fails : Action → Bool) (st : SyncState) (event : AltEvent) :
    outState (runEvent fails st event) = (dispatchEvent st event).1 := by
  cases h2 : (dispatchEvent st event).2 with
  | none => simp [runEvent, h2, outState]
  | some a =>
    cases hf : fails a with
    | true => simp [runEvent, h2, hf, outState]
    | false => simp [runEvent, h2, hf, outState]

/-- Claim C5: for every event not already in the dedup window, the event
id is inserted into the window before the target action is attempted:
whether the action succeeds or fails (and so aborts the cycle), the state
the step leaves behind contains the event id, so the event is never
re-attempted within the same run. -/
theorem C5_seen_before_action (fails : Action → Bool) (st : SyncState)
    (event : AltEvent) (h : st.seen.contains event.id = false) :
    (outState (runEvent fails st event)).seen.contains event.id = true := by
  rw [outState_runEvent]
  exact dispatchEvent_mem_seen st event h

/-- Witness for C5: a concrete unseen event whose create action fails;
its id is nevertheless in the window afterwards. -/
theorem C5_seen_before_action_witness :
    ((⟨[], []⟩ : SyncState)).seen.contains 7 = false ∧
    (outState (runEvent (fun _ => true) ⟨[], []⟩ ⟨7, sampleIssue, "closed"⟩)).seen.contains 7
      = true :=
  ⟨by decide, C5_seen_before_action (fun _ => true) ⟨[], []⟩ ⟨7, sampleIssue, "closed"⟩
    (by decide)⟩

/-- Claim C6: for every unseen event whose source issue is already mapped
to target id `y`, an update of `y` is dispatched iff the event kind is
"closed", "reopened" or "renamed"; for any other kind the step dispatches
nothing at all (no create, no update); and when an update is dispatched
its payload is recomputed in full from the event's embedded issue
snapshot. -/
theorem C6_mapped_update_iff (st : SyncState) (event : AltEvent) (y : Nat)
    (hseen : st.seen.contains event.id = false)
    (hmap : mapLookup st.issues event.issue.id = some y) :
    ((dispatchEvent st event).2 = some (Action.update y (create_issue_data event.issue)) ↔
      (event.event = "closed" ∨ event.event = "reopened" ∨ event.event = "renamed")) ∧
    (¬(event.event = "closed" ∨ event.event = "reopened" ∨ event.event = "renamed") →
      (dispatchEvent st event).2 = none) := by
  have h' : event.id ∉ st.seen := by simpa using hseen
  unfold dispatchEvent
  cases hk : (event.event == "closed" || event.event == "reopened"
      || event.event == "renamed") with
  | true =>
    have hk' : event.event = "closed" ∨ event.event = "reopened" ∨ event.event = "renamed" := by
      simpa [Bool.or_eq_true, beq_iff_eq, or_assoc] using hk
    simp [h', hmap, hk, hk']
  | false =>
    have hk' : ¬(event.event = "closed" ∨ event.event = "reopened" ∨ event.event = "renamed") := by
      simpa [Bool.or_eq_true, beq_iff_eq, or_assoc, not_or, and_assoc] using hk
    simp [h', hmap, hk, hk']

/-- Witness for C6 at a concrete mapped, unseen "closed" event. -/
theorem C6_mapped_update_iff_witness :
    ((⟨[], [(1, 5)]⟩ : SyncState)).seen.contains 7 = false ∧
    mapLookup [(1, 5)] 1 = some 5 ∧
    ((dispatchEvent ⟨[], [(1, 5)]⟩ ⟨7, sampleIssue, "closed"⟩).2 =
        some (Action.update 5 (create_issue_data sampleIssue)) ↔
      ("closed" = "closed" ∨ ("closed" : String) = "reopened" ∨
        ("closed" : String) = "renamed")) :=
  ⟨by decide, by decide,
    (C6_mapped_update_iff ⟨[], [(1, 5)]⟩ ⟨7, sampleIssue, "closed"⟩ 5
      (by decide) (by decide)).1⟩

/-- An unmapped source issue used for the C1 run. -/
def issue99 : Issue :=
  { id := 99
    title := "stray"
    body := none
    state := IssueState.closed
    state_reason := some IssueStateReason.notPlanned
    pull_request := none }

/-- Claim C1 counterexample: from a state with an empty mapping, the
event `(id 1, issue 99)` dispatches a create, yet afterwards the mapping
still has no entry for issue 99 — the source discards the id the create
returns — and a second event `(id 2, issue 99)` then dispatches a second
create for the same source-issue identifier. -/
theorem C1_counterexample :
    (dispatchEvent ⟨[], []⟩ ⟨1, issue99, "closed"⟩).2 =
      some (Action.create (create_issue_data issue99)) ∧
    mapLookup ((dispatchEvent ⟨[], []⟩ ⟨1, issue99, "closed"⟩).1).issues 99 = none ∧
    (processBatch ⟨[], []⟩ [⟨1, issue99, "closed"⟩, ⟨2, issue99, "commented"⟩]).2 =
      [Action.create (create_issue_data issue99),
        Action.create (create_issue_data issue99)] :=
  ⟨rfl, rfl, rfl⟩

/-- Claim C1 amended: the mapping lookup is performed before any create —
for an unseen event whose source issue is absent from the mapping a create
is dispatched — but the dispatcher leaves the mapping unchanged (the new
source→target pair is not inserted, because the id returned by the create
is discarded), so the dispatcher can issue further creates for the same
source-issue identifier on later events. -/
theorem C1_dispatch_create_leaves_mapping (st : SyncState) (event : AltEvent)
    (hseen : st.seen.contains event.id = false)
    (hmap : mapLookup st.issues event.issue.id = none) :
    (dispatchEvent st event).2 = some (Action.create (create_issue_data event.issue)) ∧
    ((dispatchEvent st event).1).issues = st.issues := by
  have h' : event.id ∉ st.seen := by simpa using hseen
  unfold dispatchEvent
  simp [h', hmap]

/-- Witness for C1 amended at a concrete unmapped, unseen event. -/
theorem C1_dispatch_create_leaves_mapping_witness :
    ((⟨[], []⟩ : SyncState)).seen.contains 1 = false ∧
    mapLookup [] 99 = none ∧
    (dispatchEvent ⟨[], []⟩ ⟨1, issue99, "closed"⟩).2 =
      some (Action.create (create_issue_data issue99)) :=
  ⟨by decide, by decide,
    (C1_dispatch_create_leaves_mapping ⟨[], []⟩ ⟨1, issue99, "closed"⟩
      (by decide) (by decide)).1⟩

/-- Keys after a `mapInsert`: the inserted key, plus every previous key. -/
theorem mapInsert_keys_mem (m : List (Nat × Nat)) (k v j : Nat) :
    j ∈ (mapInsert m k v).map Prod.fst ↔ j = k ∨ j ∈ m.map Prod.fst := by
  simp only [mapInsert, List.map_cons, List.mem_cons, List.mem_map,
    List.mem_filter, bne_iff_ne]
  constructor
  · rintro (rfl | ⟨p, ⟨hp, _⟩, rfl⟩)
    · exact Or.inl rfl
    · exact Or.inr ⟨p, hp, rfl⟩
  · rintro (rfl | ⟨p, hp, rfl⟩)
    · exact Or.inl rfl
    · by_cases hpk : p.1 = k
      · exact Or.inl hpk
      · exact Or.inr ⟨p, ⟨hp, hpk⟩, rfl⟩

/-- `mapInsert` keeps the keys free of duplicates. -/
theorem mapInsert_keys_nodup (m : List (Nat × Nat)) (k v : Nat)
    (h : (m.map Prod.fst).Nodup) : ((mapInsert m k v).map Prod.fst).Nodup := by
  simp only [mapInsert, List.map_cons, List.nodup_cons]
  refine ⟨?_, ((List.filter_sublist m).map Prod.fst).nodup h⟩
  simp only [List.mem_map, List.mem_filter, bne_iff_ne]
  rintro ⟨p, ⟨_, hpk⟩, rfl⟩
  exact hpk rfl

/-- The bootstrap fold issues exactly one create per folded issue. -/
theorem foldl_bootstrapStep_creates (li : List Issue) :
    ∀ acc : List (Nat × Nat) × List IssueData,
      ((li.foldl bootstrapStep acc).2).length = acc.2.length + li.length := by
  induction li with
  | nil => intro acc; simp
  | cons i is ih =>
    intro acc
    simp only [List.foldl_cons]
    rw [ih]
    simp [bootstrapStep]
    omega

/-- The keys produced by the bootstrap fold: the initial keys plus the
ids of the folded issues. -/
theorem foldl_bootstrapStep_keys (li : List Issue) :
    ∀ (acc : List (Nat × Nat) × List IssueData) (j : Nat),
      (j ∈ ((li.foldl bootstrapStep acc).1).map Prod.fst ↔
        j ∈ acc.1.map Prod.fst ∨ ∃ i ∈ li, Issue.id i = j) := by
  induction li with
  | nil => intro acc j; simp
  | cons i is ih =>
    intro acc j
    simp only [List.foldl_cons]
    rw [ih]
    simp only [bootstrapStep, mapInsert_keys_mem, List.mem_cons]
    constructor
    · rintro (( rfl | hj) | ⟨i', hi', rfl⟩)
      · exact Or.inr ⟨i, Or.inl rfl, rfl⟩
      · exact Or.inl hj
      · exact Or.inr ⟨i', Or.inr hi', rfl⟩
    · rintro (hj | ⟨i', (rfl | hi'), rfl⟩)
      · exact Or.inl (Or.inr hj)
      · exact Or.inl (Or.inl rfl)
      · exact Or.inr ⟨i', hi', rfl⟩

/-- The bootstrap fold keeps the mapping keys free of duplicates. -/
theorem foldl_bootstrapStep_nodup (li : List Issue) :
    ∀ acc : List (Nat × Nat) × List IssueData,
      (acc.1.map Prod.fst).Nodup → (((li.foldl bootstrapStep acc).1).map Prod.fst).Nodup := by
  induction li with
  | nil => intro acc h; simpa using h
  | cons i is ih =>
    intro acc h
    simp only [List.foldl_cons]
    exact ih _ (mapInsert_keys_nodup acc.1 i.id acc.2.length h)

/-- Claim C7 counterexample: a bootstrap list with two entries for the
same source issue (id 1, not a pull request) makes bootstrap issue two
target-issue creates, although the list holds a single distinct
source-issue identifier; the claim says at most one create per distinct
identifier. -/
theorem C7_counterexample :
    (bootstrap [sampleIssue, sampleIssue]).2 =
      [create_issue_data sampleIssue, create_issue_data sampleIssue] ∧
    ((bootstrap [sampleIssue, sampleIssue]).2).length = 2 ∧
    (bootstrap [sampleIssue, sampleIssue]).1 = [(1, 1)] :=
  ⟨rfl, rfl, rfl⟩

/-- Claim C7 amended: bootstrap issues exactly one target-issue create per
non-pull-request entry of the source list — so duplicate entries for the
same identifier cause duplicate creates — while the resulting mapping
still has exactly one entry per distinct non-pull-request source id (later
entries overwrite earlier ones), and pull-request entries are excluded
entirely: they cause no create and never enter the mapping. -/
theorem C7_bootstrap_mapping (github_issues : List Issue) :
    ((bootstrap github_issues).2).length =
      (github_issues.filter (fun v => v.pull_request.isNone)).length ∧
    (((bootstrap github_issues).1).map Prod.fst).Nodup ∧
    (∀ j, j ∈ ((bootstrap github_issues).1).map Prod.fst ↔
      ∃ i ∈ github_issues, i.pull_request.isNone = true ∧ Issue.id i = j) := by
  refine ⟨?_, ?_, ?_⟩
  · unfold bootstrap
    rw [foldl_bootstrapStep_creates]
    simp
  · exact foldl_bootstrapStep_nodup _ ([], []) (by simp)
  · intro j
    unfold bootstrap
    rw [foldl_bootstrapStep_keys]
    simp only [List.map_nil, List.not_mem_nil, false_or, List.mem_filter]
    constructor
    · rintro ⟨i, ⟨hi, hpr⟩, rfl⟩
      exact ⟨i, hi, hpr, rfl⟩
    · rintro ⟨i, hi, hpr, rfl⟩
      exact ⟨i, ⟨hi, hpr⟩, rfl⟩

end YouSync
